import Mathlib

/-!
Verification of the linear-programming sample repository
(src/linear_programming.py and src/constants.py).

The repository builds two mixed-integer linear programs with an external
solver library, writes each model to an .lp file, solves it and prints a
report, and loads a JSON configuration file into module-level constants.
The external solver itself is an opaque capability: we embed the model
data the source builds, the report the source prints, and the sequence of
effects each example function performs, and we treat the solver as an
arbitrary function from problems to outcomes.
-/

set_option autoImplicit false

namespace LpSamples

/-! ## Linear expressions

Modelled from the spec: the repository delegates expression arithmetic to
the external solver library, which is not part of the source tree.  The
spec describes a LinearExpression as a mapping from variables to
coefficients plus a constant, where arithmetic composition sums the
coefficients of repeated variables.  We represent the term map as an
association list from variable names to rational coefficients. -/

/-- Terms of a linear expression: an association list from variable names
to coefficients. -/
abbrev Terms := List (String × ℚ)

/-- Add a single term with coefficient a for variable v, summing into the
existing entry for v when one is present (the spec's coefficient
accumulation for repeated variables). -/
def addTerm : Terms → String → ℚ → Terms
  | [], v, a => [(v, a)]
  | (w, c) :: rest, v, a =>
      if w = v then (w, c + a) :: rest else (w, c) :: addTerm rest v a

/-- Total coefficient of variable v in a term list (summing duplicate
entries, so that it is the semantics of the term map). -/
def coeffOf : Terms → String → ℚ
  | [], _ => 0
  | (w, c) :: rest, v => (if w = v then c else 0) + coeffOf rest v

/-- Number of entries for variable v in the term list: the term map
"contains a single term for v" when this is 1. -/
def countKey (ts : Terms) (v : String) : ℕ :=
  (ts.filter (fun p => p.1 = v)).length

/-- Modelled from the spec: a linear expression is a term map plus a
constant. -/
structure LinExpr where
  terms : Terms
  constant : ℚ
  deriving DecidableEq

/-- Expression with the single term c * v (the library's scaling of a
variable name by a coefficient, as in 20 * x in the source). -/
def LinExpr.ofTerm (v : String) (c : ℚ) : LinExpr :=
  ⟨[(v, c)], 0⟩

/-- Modelled from the spec: add(Variable, coefficient), returning a new
expression whose term map sums coefficients for repeated variables. -/
def LinExpr.addVar (e : LinExpr) (v : String) (a : ℚ) : LinExpr :=
  ⟨addTerm e.terms v a, e.constant⟩

/-- Modelled from the spec: add(LinearExpression), merging the second
term map into the first, summing coefficients for repeated variables. -/
def LinExpr.add (e₁ e₂ : LinExpr) : LinExpr :=
  ⟨e₂.terms.foldl (fun acc p => addTerm acc p.1 p.2) e₁.terms,
   e₁.constant + e₂.constant⟩

/-- Coefficient of a variable in an expression. -/
def LinExpr.coeff (e : LinExpr) (v : String) : ℚ :=
  coeffOf e.terms v

/-! ## Variables, constraints, problems

These mirror the solver-library objects the source constructs:
LpVariable with name, lowBound, upBound and category, LpProblem with a
name, a sense, an objective, constraints and variables. -/

/-- Variable category, as in the source's cat=LpInteger argument. -/
inductive VarCat where
  | continuous
  | integer
  deriving DecidableEq

/-- A decision variable with optional bounds, as built by
pulp.LpVariable(name=..., lowBound=..., upBound=..., cat=...). -/
structure LpVariable where
  name : String
  lowBound : Option ℚ
  upBound : Option ℚ
  cat : VarCat
  deriving DecidableEq

/-- Modelled from the spec: variable construction fails with
InvalidBoundsError when both bounds are specified and lowerBound >
upperBound.  The repository only calls the external library's variable
constructor; the validating constructor is specified, not in the source
tree.  The function is pure, so construction has no side effects. -/
inductive VarError where
  | invalidBounds
  deriving DecidableEq

/-- Modelled from the spec: the validating Variable constructor. -/
def mkLpVariable (name : String) (lowBound upBound : Option ℚ)
    (cat : VarCat) : Except VarError LpVariable :=
  match lowBound, upBound with
  | some lb, some ub =>
      if lb > ub then .error .invalidBounds
      else .ok ⟨name, some lb, some ub, cat⟩
  | _, _ => .ok ⟨name, lowBound, upBound, cat⟩

/-- Objective sense, as in sense=LpMaximize. -/
inductive LpSense where
  | maximize
  | minimize
  deriving DecidableEq

/-- A named less-or-equal constraint lhs <= rhs, as produced by the
source's prob += expr <= bound, "name" statements. -/
structure LpConstraint where
  name : String
  lhs : LinExpr
  rhs : ℚ
  deriving DecidableEq

/-- The problem object built by pulp.LpProblem plus the objective and
constraints the example functions add to it. -/
structure LpProblem where
  name : String
  sense : LpSense
  objective : Option LinExpr
  constraints : List LpConstraint
  -- the source's prob.variables; the name variables is reserved in Lean
  vars : List LpVariable
  deriving DecidableEq

/-- Lexicographic code-point order on character lists (Python's string
comparison, which the library's variables() uses to sort names). -/
def charListLe : List Char → List Char → Bool
  | [], _ => true
  | _ :: _, [] => false
  | a :: as, b :: bs =>
      if a.toNat < b.toNat then true
      else if b.toNat < a.toNat then false
      else charListLe as bs

/-- Name order: lexicographic by code point. -/
def nameLe (a b : String) : Bool := charListLe a.data b.data

/-- Insert a variable into a name-sorted list (helper for
sortedVariables). -/
def insertByName (v : LpVariable) : List LpVariable → List LpVariable
  | [] => [v]
  | w :: ws =>
      if nameLe v.name w.name then v :: w :: ws else w :: insertByName v ws

/-- The library's prob.variables() returns the problem's variables sorted
by name; the source's report iterates over that order. -/
def LpProblem.sortedVariables (p : LpProblem) : List LpVariable :=
  p.vars.foldr insertByName []

/-! ## Evaluation, feasibility and optimality

The solver is an external capability.  To state what "Optimal" means for
it we give the mathematical semantics of the model the source builds. -/

/-- Value of a term list under an assignment of rationals to variable
names. -/
def evalTerms (ts : Terms) (A : String → ℚ) : ℚ :=
  ts.foldr (fun p acc => p.2 * A p.1 + acc) 0

/-- Value of a linear expression under an assignment. -/
def LinExpr.eval (e : LinExpr) (A : String → ℚ) : ℚ :=
  evalTerms e.terms A + e.constant

/-- Bounds check for one variable's assigned value. -/
def boundsOk (v : LpVariable) (q : ℚ) : Prop :=
  (∀ lb, v.lowBound = some lb → lb ≤ q) ∧
  (∀ ub, v.upBound = some ub → q ≤ ub)

/-- An assignment is feasible for a problem when every constraint holds,
every variable is within its bounds, and integer variables take integer
values (a rational is an integer exactly when its denominator is 1). -/
def feasible (p : LpProblem) (A : String → ℚ) : Prop :=
  (∀ c ∈ p.constraints, c.lhs.eval A ≤ c.rhs) ∧
  (∀ v ∈ p.vars, boundsOk v (A v.name) ∧
    (v.cat = .integer → (A v.name).den = 1))

/-- Objective value of an assignment (0 when no objective is set, as the
example problems always set one). -/
def objVal (p : LpProblem) (A : String → ℚ) : ℚ :=
  match p.objective with
  | some e => e.eval A
  | none => 0

/-- An assignment is optimal for a maximization problem when it is
feasible and no feasible assignment beats its objective value. -/
def OptimalFor (p : LpProblem) (A : String → ℚ) : Prop :=
  feasible p A ∧ ∀ B, feasible p B → objVal p B ≤ objVal p A

/-! ## The external solver capability -/

/-- Solver status codes, as in the library's LpStatus table. -/
inductive LpStatusCode where
  | notSolved
  | optimal
  | infeasible
  | unbounded
  | undefined
  deriving DecidableEq

/-- The status string the library's LpStatus dictionary associates to
each code, as printed by the source. -/
def statusString : LpStatusCode → String
  | .notSolved => "Not Solved"
  | .optimal => "Optimal"
  | .infeasible => "Infeasible"
  | .unbounded => "Unbounded"
  | .undefined => "Undefined"

/-- What a run of the external solver reports back: a status and a value
for each variable name. -/
structure SolveOutcome where
  status : LpStatusCode
  values : String → ℚ

/-- The external solver capability: an arbitrary function from problems
to outcomes. -/
abbrev Solver := LpProblem → SolveOutcome

/-- Modelled from the spec: errors prob.solve() raises before invoking
the external solver (malformed model).  Solver-reported outcomes are
never errors. -/
inductive SolveError where
  | missingObjective
  deriving DecidableEq

/-- Modelled from the spec: prob.solve() checks the model is well formed
(an objective is set) and then delegates to the external solver; the
solver's status, whatever it is, is returned in the result, never
raised. -/
def LpProblem.solve (p : LpProblem) (cap : Solver) :
    Except SolveError SolveOutcome :=
  match p.objective with
  | none => .error .missingObjective
  | some _ => .ok (cap p)

/-! ## The two example models

Embeddings of the problems built by factory_product_problem and
advertising_campaign_problem in src/linear_programming.py. -/

/-- x = pulp.LpVariable(name='screws_tons_per_day', lowBound=0,
upBound=400, cat=LpInteger). -/
def screwsVar : LpVariable :=
  ⟨"screws_tons_per_day", some 0, some 400, .integer⟩

/-- y = pulp.LpVariable(name='nails_tons_per_day', lowBound=0,
upBound=300, cat=LpInteger). -/
def nailsVar : LpVariable :=
  ⟨"nails_tons_per_day", some 0, some 300, .integer⟩

/-- The objective (20 * x) + (30 * y) of the factory problem. -/
def factoryObjective : LinExpr :=
  (LinExpr.ofTerm screwsVar.name 20).add (LinExpr.ofTerm nailsVar.name 30)

/-- The working-hour constraint (x * (1/60)) + (y * (1/50)) <= 8. -/
def factoryConstraint : LpConstraint :=
  ⟨"Working Hour constraint",
   (LinExpr.ofTerm screwsVar.name (1/60)).add
     (LinExpr.ofTerm nailsVar.name (1/50)),
   8⟩

/-- The problem object built by factory_product_problem before solving:
name and sense from pulp.LpProblem, the objective and the single
constraint added with prob +=. -/
def factoryProb : LpProblem :=
  { name := "Factory Products Profit"
    sense := .maximize
    objective := some factoryObjective
    constraints := [factoryConstraint]
    vars := [screwsVar, nailsVar] }

/-- x = pulp.LpVariable(name='run_no_of_print_media', lowBound=0,
upBound=40, cat=LpInteger). -/
def printMediaVar : LpVariable :=
  ⟨"run_no_of_print_media", some 0, some 40, .integer⟩

/-- y = pulp.LpVariable(name='run_no_of_tv_media', lowBound=0,
upBound=15, cat=LpInteger). -/
def tvMediaVar : LpVariable :=
  ⟨"run_no_of_tv_media", some 0, some 15, .integer⟩

/-- The objective (1000000 * x) + (2000000 * y) of the advertising
problem. -/
def advertObjective : LinExpr :=
  (LinExpr.ofTerm printMediaVar.name 1000000).add
    (LinExpr.ofTerm tvMediaVar.name 2000000)

/-- The cost constraint (20000 * x) + (50000 * y) <= 1000000. -/
def advertConstraint : LpConstraint :=
  ⟨"Cost constraint",
   (LinExpr.ofTerm printMediaVar.name 20000).add
     (LinExpr.ofTerm tvMediaVar.name 50000),
   1000000⟩

/-- The problem object built by advertising_campaign_problem before
solving. -/
def advertProb : LpProblem :=
  { name := "Advertisement Campaign"
    sense := .maximize
    objective := some advertObjective
    constraints := [advertConstraint]
    vars := [printMediaVar, tvMediaVar] }

/-- The documented optimal assignment for the factory problem:
screws_tons_per_day = 120, nails_tons_per_day = 300. -/
def factoryOptA : String → ℚ := fun n =>
  if n = "screws_tons_per_day" then 120
  else if n = "nails_tons_per_day" then 300
  else 0

/-- The documented optimal assignment for the advertising problem:
run_no_of_print_media = 40, run_no_of_tv_media = 4. -/
def advertOptA : String → ℚ := fun n =>
  if n = "run_no_of_print_media" then 40
  else if n = "run_no_of_tv_media" then 4
  else 0

/-! ## Effect traces of the example functions

Each example function writes the model to an .lp file, solves it, and
prints a report.  We embed a run as the list of effects it performs, in
program order, parameterised by the external solver capability. -/

/-- One printed line, structured: the source prints a blank line, the
problem name, the status, one line per variable with its resolved value,
and the objective value, via print(...) and str.format. -/
inductive Line where
  | blank
  | problemName (n : String)
  | status (s : String)
  | varValue (name : String) (value : ℚ)
  | objective (label : String) (value : ℚ)
  deriving DecidableEq

/-- One effect of a run: writing the model to an .lp file
(prob.writeLP), invoking the solver (prob.solve), or printing a line. -/
inductive Event where
  | wroteLP (path : String) (p : LpProblem)
  | solved (p : LpProblem)
  | printed (l : Line)
  deriving DecidableEq

/-- The report printed after solving, in source order: a blank line, the
problem name, the status string, each variable of prob.variables() (name
sorted) with its resolved value, then the optimal objective value with
the problem-specific label. -/
def reportLines (p : LpProblem) (out : SolveOutcome) (objLabel : String) :
    List Line :=
  [Line.blank, Line.problemName p.name, Line.status (statusString out.status)]
  ++ p.sortedVariables.map (fun v => Line.varValue v.name (out.values v.name))
  ++ [Line.objective objLabel (objVal p out.values)]

/-- Effect trace of factory_product_problem: build the model, write
MaximisedProfit.lp, solve, print the report. -/
def factory_product_problem (cap : Solver) : List Event :=
  let prob := factoryProb
  let out := cap prob
  [Event.wroteLP "MaximisedProfit.lp" prob, Event.solved prob]
  ++ (reportLines prob out
      "Ton for each product per day to maximise profit = ").map Event.printed

/-- Effect trace of advertising_campaign_problem: build the model, write
AdvertisementCampaign.lp, solve, print the report. -/
def advertising_campaign_problem (cap : Solver) : List Event :=
  let prob := advertProb
  let out := cap prob
  [Event.wroteLP "AdvertisementCampaign.lp" prob, Event.solved prob]
  ++ (reportLines prob out
      "Maximum people reach by using both media = ").map Event.printed

/-- Effect trace of main(): factory_product_problem then
advertising_campaign_problem (the pulp.pulpTestAll() call is commented
out in the source). -/
def main (cap : Solver) : List Event :=
  factory_product_problem cap ++ advertising_campaign_problem cap

/-- The models solved in a trace, in order. -/
def solvedModels (tr : List Event) : List LpProblem :=
  tr.filterMap (fun e => match e with | .solved p => some p | _ => none)

/-- The .lp files written in a trace, with the model written to each, in
order. -/
def writtenFiles (tr : List Event) : List (String × LpProblem) :=
  tr.filterMap (fun e => match e with
    | .wroteLP path p => some (path, p)
    | _ => none)

/-- The lines printed in a trace, in order. -/
def printedLines (tr : List Event) : List Line :=
  tr.filterMap (fun e => match e with | .printed l => some l | _ => none)

/-- Index of the first occurrence of an event in a trace (length of the
trace when absent). -/
def eventIdx (tr : List Event) (e : Event) : ℕ :=
  tr.findIdx (fun x => x = e)

/-! ## Configuration loading

Embedding of src/constants.py: class Config opens config.json, parses it
with json.load and reads fixed keys; class Environment holds UAT = 1 and
PROD = 9.  The file system is abstracted as an Option Json (none when
the file is missing); json.load output is a Json value. -/

/-- A parsed JSON value (what json.load returns). -/
inductive Json where
  | null
  | bool (b : Bool)
  | num (q : ℚ)
  | str (s : String)
  | arr (xs : List Json)
  | obj (kvs : List (String × Json))

/-- First value bound to a key in a JSON object's entry list. -/
def getKey : List (String × Json) → String → Option Json
  | [], _ => none
  | (k, v) :: rest, key => if k = key then some v else getKey rest key

/-- Subscript lookup config[key]: some value for a present key of an
object, none otherwise (Python raises KeyError, or TypeError on
non-objects). -/
def Json.get : Json → String → Option Json
  | .obj kvs, key => getKey kvs key
  | _, _ => none

/-- The constants class Config exposes after loading. -/
structure Config where
  APP_NAME : Json
  VERSION : Json
  ENV : Json
  PATH_SRC : Json
  PATH_DATA : Json
  PATH_LOG : Json
  PATH_TEST : Json

/-- Failures of config loading: the file cannot be opened, or a required
key is absent (FileNotFoundError and KeyError in the source, both fatal
when the module loads). -/
inductive ConfigError where
  | missingFile
  | missingKey (k : String)
  deriving DecidableEq

/-- Loading of class Config in src/constants.py: open config.json (none
means the file is missing), then read APP_NAME, VERSION, ENV, then
PATHS and its sub-keys SOURCE_CODE, DATA, LOG, TEST, in source order;
the first missing key aborts loading.  Each value is exposed exactly as
deserialized, with no validation. -/
def loadConfig : Option Json → Except ConfigError Config
  | none => .error .missingFile
  | some config =>
      match config.get "APP_NAME" with
      | none => .error (.missingKey "APP_NAME")
      | some app =>
      match config.get "VERSION" with
      | none => .error (.missingKey "VERSION")
      | some ver =>
      match config.get "ENV" with
      | none => .error (.missingKey "ENV")
      | some env =>
      match config.get "PATHS" with
      | none => .error (.missingKey "PATHS")
      | some paths =>
      match paths.get "SOURCE_CODE" with
      | none => .error (.missingKey "SOURCE_CODE")
      | some src =>
      match paths.get "DATA" with
      | none => .error (.missingKey "DATA")
      | some dat =>
      match paths.get "LOG" with
      | none => .error (.missingKey "LOG")
      | some log =>
      match paths.get "TEST" with
      | none => .error (.missingKey "TEST")
      | some tst =>
      .ok ⟨app, ver, env, src, dat, log, tst⟩

/-- All keys class Config reads are present. -/
def hasAllConfigKeys (j : Json) : Prop :=
  (j.get "APP_NAME").isSome ∧ (j.get "VERSION").isSome ∧
  (j.get "ENV").isSome ∧
  ∃ paths, j.get "PATHS" = some paths ∧
    (paths.get "SOURCE_CODE").isSome ∧ (paths.get "DATA").isSome ∧
    (paths.get "LOG").isSome ∧ (paths.get "TEST").isSome

namespace Environment

/-- Environment.UAT = 1 in src/constants.py. -/
def UAT : ℤ := 1

/-- Environment.PROD = 9 in src/constants.py. -/
def PROD : ℤ := 9

end Environment

/-- A config file with all required keys present and an arbitrary value
in the ENV slot. -/
def configJsonWithEnv (e : Json) : Json :=
  .obj [("APP_NAME", .str "python_linear_programming_samples"),
        ("VERSION", .str "1.0"),
        ("ENV", e),
        ("PATHS", .obj [("SOURCE_CODE", .str "/src"),
                        ("DATA", .str "/data"),
                        ("LOG", .str "/log"),
                        ("TEST", .str "/test")])]

/-- A solver capability fixture: always reports Optimal with all-zero
values (used to exercise theorems on concrete runs). -/
def constOptSolver : Solver := fun _ => ⟨.optimal, fun _ => 0⟩

/-- A solver capability fixture: always reports Infeasible. -/
def infeasibleSolver : Solver := fun _ => ⟨.infeasible, fun _ => 0⟩

/-- A malformed model: no objective was ever added. -/
def noObjectiveProb : LpProblem :=
  { name := "No Objective", sense := .maximize, objective := none,
    constraints := [], vars := [] }

/-! ## Theorems -/

theorem coeffOf_addTerm (ts : Terms) (v : String) (a : ℚ) (w : String) :
    coeffOf (addTerm ts v a) w = coeffOf ts w + (if w = v then a else 0) := by
  induction ts with
  | nil =>
      simp only [addTerm, coeffOf]
      rcases eq_or_ne w v with h | h
      · simp [h]
      · simp [h, Ne.symm h]
  | cons p rest ih =>
      obtain ⟨u, c⟩ := p
      by_cases huv : u = v
      · subst huv
        simp only [addTerm, if_pos rfl, coeffOf]
        rcases eq_or_ne w u with h | h
        · subst h; simp; ring
        · simp [Ne.symm h, h]
      · simp only [addTerm, if_neg huv, coeffOf, ih]
        ring

theorem coeffOf_foldl_addTerm (ts₂ ts₁ : Terms) (w : String) :
    coeffOf (ts₂.foldl (fun acc p => addTerm acc p.1 p.2) ts₁) w =
      coeffOf ts₁ w + coeffOf ts₂ w := by
  induction ts₂ generalizing ts₁ with
  | nil => simp [coeffOf]
  | cons p rest ih =>
      obtain ⟨u, c⟩ := p
      simp only [List.foldl_cons, ih, coeffOf_addTerm, coeffOf]
      rcases eq_or_ne u w with h | h
      · simp [h]; ring
      · simp [h, Ne.symm h]

/-- Coefficient accumulation: expression addition adds coefficients
pointwise. -/
theorem LinExpr.coeff_add (e₁ e₂ : LinExpr) (v : String) :
    (e₁.add e₂).coeff v = e₁.coeff v + e₂.coeff v := by
  simp [LinExpr.add, LinExpr.coeff, coeffOf_foldl_addTerm]

theorem coeffOf_nonmem (ts : Terms) (v : String) (h : countKey ts v = 0) :
    coeffOf ts v = 0 := by
  induction ts with
  | nil => rfl
  | cons p rest ih =>
      obtain ⟨u, c⟩ := p
      simp only [countKey, List.filter] at h
      by_cases huv : u = v
      · simp [huv] at h
      · simp only [coeffOf, if_neg huv, zero_add]
        exact ih (by simpa [countKey, huv] using h)

theorem countKey_addTerm_of_nonmem (ts : Terms) (v : String) (a : ℚ)
    (h : countKey ts v = 0) : countKey (addTerm ts v a) v = 1 := by
  induction ts with
  | nil => simp [addTerm, countKey]
  | cons p rest ih =>
      obtain ⟨u, c⟩ := p
      by_cases huv : u = v
      · simp [countKey, huv] at h
      · simp only [addTerm, if_neg huv]
        have h' : countKey rest v = 0 := by simpa [countKey, huv] using h
        simpa [countKey, huv] using ih h'

theorem countKey_addTerm_self (ts : Terms) (v : String) (a : ℚ)
    (h : countKey ts v = 1) : countKey (addTerm ts v a) v = 1 := by
  induction ts with
  | nil => simp [countKey] at h
  | cons p rest ih =>
      obtain ⟨u, c⟩ := p
      by_cases huv : u = v
      · subst huv
        simp only [addTerm, if_pos rfl]
        simpa [countKey] using (by simpa [countKey] using h : 1 + countKey rest u = 1)
      · simp only [addTerm, if_neg huv]
        have h' : countKey rest v = 1 := by simpa [countKey, huv] using h
        simpa [countKey, huv] using ih h'

theorem factoryObjective_eq :
    factoryObjective = ⟨[("screws_tons_per_day", 20),
      ("nails_tons_per_day", 30)], 0⟩ := by
  simp [factoryObjective, LinExpr.ofTerm, LinExpr.add, addTerm,
    screwsVar, nailsVar]

theorem factoryConstraint_lhs_eq :
    factoryConstraint.lhs = ⟨[("screws_tons_per_day", 1/60),
      ("nails_tons_per_day", 1/50)], 0⟩ := by
  simp [factoryConstraint, LinExpr.ofTerm, LinExpr.add, addTerm,
    screwsVar, nailsVar]

theorem advertObjective_eq :
    advertObjective = ⟨[("run_no_of_print_media", 1000000),
      ("run_no_of_tv_media", 2000000)], 0⟩ := by
  simp [advertObjective, LinExpr.ofTerm, LinExpr.add, addTerm,
    printMediaVar, tvMediaVar]

theorem advertConstraint_lhs_eq :
    advertConstraint.lhs = ⟨[("run_no_of_print_media", 20000),
      ("run_no_of_tv_media", 50000)], 0⟩ := by
  simp [advertConstraint, LinExpr.ofTerm, LinExpr.add, addTerm,
    printMediaVar, tvMediaVar]

theorem objVal_factory (B : String → ℚ) :
    objVal factoryProb B =
      20 * B "screws_tons_per_day" + 30 * B "nails_tons_per_day" := by
  show factoryObjective.eval B = _
  rw [factoryObjective_eq]
  simp [LinExpr.eval, evalTerms]

theorem objVal_advert (B : String → ℚ) :
    objVal advertProb B =
      1000000 * B "run_no_of_print_media" +
        2000000 * B "run_no_of_tv_media" := by
  show advertObjective.eval B = _
  rw [advertObjective_eq]
  simp [LinExpr.eval, evalTerms]

theorem feasible_factory_elim {B : String → ℚ} (h : feasible factoryProb B) :
    1/60 * B "screws_tons_per_day" + 1/50 * B "nails_tons_per_day" ≤ 8 ∧
    0 ≤ B "screws_tons_per_day" ∧ B "screws_tons_per_day" ≤ 400 ∧
    0 ≤ B "nails_tons_per_day" ∧ B "nails_tons_per_day" ≤ 300 := by
  obtain ⟨hc, hv⟩ := h
  have h1 := hc factoryConstraint (by simp [factoryProb])
  have h2 := hv screwsVar (by simp [factoryProb])
  have h3 := hv nailsVar (by simp [factoryProb])
  rw [show factoryConstraint.lhs.eval B ≤ factoryConstraint.rhs ↔
      1/60 * B "screws_tons_per_day" + 1/50 * B "nails_tons_per_day" ≤ 8 by
    rw [factoryConstraint_lhs_eq]
    simp [LinExpr.eval, evalTerms, factoryConstraint]] at h1
  exact ⟨h1, h2.1.1 0 rfl, h2.1.2 400 rfl, h3.1.1 0 rfl, h3.1.2 300 rfl⟩

theorem feasible_advert_elim {B : String → ℚ} (h : feasible advertProb B) :
    20000 * B "run_no_of_print_media" + 50000 * B "run_no_of_tv_media"
        ≤ 1000000 ∧
    0 ≤ B "run_no_of_print_media" ∧ B "run_no_of_print_media" ≤ 40 ∧
    0 ≤ B "run_no_of_tv_media" ∧ B "run_no_of_tv_media" ≤ 15 := by
  obtain ⟨hc, hv⟩ := h
  have h1 := hc advertConstraint (by simp [advertProb])
  have h2 := hv printMediaVar (by simp [advertProb])
  have h3 := hv tvMediaVar (by simp [advertProb])
  rw [show advertConstraint.lhs.eval B ≤ advertConstraint.rhs ↔
      20000 * B "run_no_of_print_media" +
        50000 * B "run_no_of_tv_media" ≤ 1000000 by
    rw [advertConstraint_lhs_eq]
    simp [LinExpr.eval, evalTerms, advertConstraint]] at h1
  exact ⟨h1, h2.1.1 0 rfl, h2.1.2 40 rfl, h3.1.1 0 rfl, h3.1.2 15 rfl⟩

theorem factoryOptA_feasible : feasible factoryProb factoryOptA := by
  refine ⟨?_, ?_⟩
  · intro c hc
    simp [factoryProb] at hc
    subst hc
    show factoryConstraint.lhs.eval factoryOptA ≤ factoryConstraint.rhs
    rw [factoryConstraint_lhs_eq]
    simp [LinExpr.eval, evalTerms, factoryOptA, factoryConstraint]
    norm_num
  · intro v hv
    simp [factoryProb] at hv
    rcases hv with h | h <;>
      (subst h; refine ⟨⟨?_, ?_⟩, fun _ => ?_⟩) <;>
      (simp [boundsOk, screwsVar, nailsVar, factoryOptA]; try norm_num)

theorem advertOptA_feasible : feasible advertProb advertOptA := by
  refine ⟨?_, ?_⟩
  · intro c hc
    simp [advertProb] at hc
    subst hc
    show advertConstraint.lhs.eval advertOptA ≤ advertConstraint.rhs
    rw [advertConstraint_lhs_eq]
    simp [LinExpr.eval, evalTerms, advertOptA, advertConstraint]
    norm_num
  · intro v hv
    simp [advertProb] at hv
    rcases hv with h | h <;>
      (subst h; refine ⟨⟨?_, ?_⟩, fun _ => ?_⟩) <;>
      (simp [boundsOk, printMediaVar, tvMediaVar, advertOptA]; try norm_num)

theorem factory_obj_bound {B : String → ℚ} (h : feasible factoryProb B) :
    objVal factoryProb B ≤ 11400 := by
  obtain ⟨h1, h2, h3, h4, h5⟩ := feasible_factory_elim h
  rw [objVal_factory]
  linarith

theorem advert_obj_bound {B : String → ℚ} (h : feasible advertProb B) :
    objVal advertProb B ≤ 48000000 := by
  obtain ⟨h1, h2, h3, h4, h5⟩ := feasible_advert_elim h
  rw [objVal_advert]
  linarith

theorem objVal_factoryOptA : objVal factoryProb factoryOptA = 11400 := by
  rw [objVal_factory]
  simp [factoryOptA]
  norm_num

theorem objVal_advertOptA : objVal advertProb advertOptA = 48000000 := by
  rw [objVal_advert]
  simp [advertOptA]
  norm_num

theorem factoryOptA_optimal : OptimalFor factoryProb factoryOptA :=
  ⟨factoryOptA_feasible, fun B hB => by
    rw [objVal_factoryOptA]; exact factory_obj_bound hB⟩

theorem advertOptA_optimal : OptimalFor advertProb advertOptA :=
  ⟨advertOptA_feasible, fun B hB => by
    rw [objVal_advertOptA]; exact advert_obj_bound hB⟩

theorem factory_obj_eq_values {B : String → ℚ}
    (h : feasible factoryProb B) (hobj : objVal factoryProb B = 11400) :
    B "screws_tons_per_day" = 120 ∧ B "nails_tons_per_day" = 300 := by
  obtain ⟨h1, h2, h3, h4, h5⟩ := feasible_factory_elim h
  rw [objVal_factory] at hobj
  constructor <;> linarith

theorem advert_obj_eq_values {B : String → ℚ}
    (h : feasible advertProb B) (hobj : objVal advertProb B = 48000000) :
    B "run_no_of_print_media" = 40 ∧ B "run_no_of_tv_media" = 4 := by
  obtain ⟨h1, h2, h3, h4, h5⟩ := feasible_advert_elim h
  rw [objVal_advert] at hobj
  constructor <;> linarith

theorem nameLe_screws_nails :
    nameLe "screws_tons_per_day" "nails_tons_per_day" = false := by decide

theorem nameLe_print_tv :
    nameLe "run_no_of_print_media" "run_no_of_tv_media" = true := by decide

theorem factory_sortedVariables :
    factoryProb.sortedVariables = [nailsVar, screwsVar] := by
  simp [LpProblem.sortedVariables, factoryProb, insertByName,
    screwsVar, nailsVar, nameLe_screws_nails]

theorem advert_sortedVariables :
    advertProb.sortedVariables = [printMediaVar, tvMediaVar] := by
  simp [LpProblem.sortedVariables, advertProb, insertByName,
    printMediaVar, tvMediaVar, nameLe_print_tv]

theorem solvedModels_printed (ls : List Line) :
    solvedModels (ls.map .printed) = [] := by
  induction ls with
  | nil => rfl
  | cons l rest ih => simp [solvedModels, List.filterMap_cons, ih]

theorem writtenFiles_printed (ls : List Line) :
    writtenFiles (ls.map .printed) = [] := by
  induction ls with
  | nil => rfl
  | cons l rest ih => simp [writtenFiles, List.filterMap_cons, ih]

theorem printedLines_printed (ls : List Line) :
    printedLines (ls.map .printed) = ls := by
  induction ls with
  | nil => rfl
  | cons l rest ih =>
      simp only [printedLines, List.map_cons, List.filterMap_cons] at ih ⊢
      simpa using ih

theorem factory_trace (cap : Solver) :
    factory_product_problem cap =
      [Event.wroteLP "MaximisedProfit.lp" factoryProb,
       Event.solved factoryProb]
      ++ (reportLines factoryProb (cap factoryProb)
          "Ton for each product per day to maximise profit = ").map
          Event.printed := rfl

theorem advert_trace (cap : Solver) :
    advertising_campaign_problem cap =
      [Event.wroteLP "AdvertisementCampaign.lp" advertProb,
       Event.solved advertProb]
      ++ (reportLines advertProb (cap advertProb)
          "Maximum people reach by using both media = ").map
          Event.printed := rfl

theorem solvedModels_append (t₁ t₂ : List Event) :
    solvedModels (t₁ ++ t₂) = solvedModels t₁ ++ solvedModels t₂ := by
  simp [solvedModels]

theorem writtenFiles_append (t₁ t₂ : List Event) :
    writtenFiles (t₁ ++ t₂) = writtenFiles t₁ ++ writtenFiles t₂ := by
  simp [writtenFiles]

theorem printedLines_append (t₁ t₂ : List Event) :
    printedLines (t₁ ++ t₂) = printedLines t₁ ++ printedLines t₂ := by
  simp [printedLines]

theorem solvedModels_factory (cap : Solver) :
    solvedModels (factory_product_problem cap) = [factoryProb] := by
  rw [factory_trace, solvedModels_append, solvedModels_printed]
  simp [solvedModels, List.filterMap_cons]

theorem solvedModels_advert (cap : Solver) :
    solvedModels (advertising_campaign_problem cap) = [advertProb] := by
  rw [advert_trace, solvedModels_append, solvedModels_printed]
  simp [solvedModels, List.filterMap_cons]

theorem writtenFiles_factory (cap : Solver) :
    writtenFiles (factory_product_problem cap) =
      [("MaximisedProfit.lp", factoryProb)] := by
  rw [factory_trace, writtenFiles_append, writtenFiles_printed]
  simp [writtenFiles, List.filterMap_cons]

theorem writtenFiles_advert (cap : Solver) :
    writtenFiles (advertising_campaign_problem cap) =
      [("AdvertisementCampaign.lp", advertProb)] := by
  rw [advert_trace, writtenFiles_append, writtenFiles_printed]
  simp [writtenFiles, List.filterMap_cons]

theorem printedLines_factory (cap : Solver) :
    printedLines (factory_product_problem cap) =
      reportLines factoryProb (cap factoryProb)
        "Ton for each product per day to maximise profit = " := by
  rw [factory_trace, printedLines_append, printedLines_printed]
  rfl

theorem printedLines_advert (cap : Solver) :
    printedLines (advertising_campaign_problem cap) =
      reportLines advertProb (cap advertProb)
        "Maximum people reach by using both media = " := by
  rw [advert_trace, printedLines_append, printedLines_printed]
  rfl

theorem loadConfig_some_ok_iff (j : Json) :
    (loadConfig (some j)).isOk ↔ hasAllConfigKeys j := by
  simp only [loadConfig, hasAllConfigKeys]
  rcases h1 : j.get "APP_NAME" with _ | app
  · simp [h1, Except.isOk, Except.toBool]
  rcases h2 : j.get "VERSION" with _ | ver
  · simp [h1, h2, Except.isOk, Except.toBool]
  rcases h3 : j.get "ENV" with _ | env
  · simp [h1, h2, h3, Except.isOk, Except.toBool]
  rcases h4 : j.get "PATHS" with _ | paths
  · simp [h1, h2, h3, h4, Except.isOk, Except.toBool]
  rcases h5 : paths.get "SOURCE_CODE" with _ | src
  · simp [h1, h2, h3, h4, h5, Except.isOk, Except.toBool]
  rcases h6 : paths.get "DATA" with _ | dat
  · simp [h1, h2, h3, h4, h5, h6, Except.isOk, Except.toBool]
  rcases h7 : paths.get "LOG" with _ | log
  · simp [h1, h2, h3, h4, h5, h6, h7, Except.isOk, Except.toBool]
  rcases h8 : paths.get "TEST" with _ | tst
  · simp [h1, h2, h3, h4, h5, h6, h7, h8, Except.isOk, Except.toBool]
  · simp [h1, h2, h3, h4, h5, h6, h7, h8, Except.isOk, Except.toBool]

theorem loadConfig_fields {j : Json} {c : Config}
    (h : loadConfig (some j) = .ok c) :
    j.get "APP_NAME" = some c.APP_NAME ∧
    j.get "VERSION" = some c.VERSION ∧
    j.get "ENV" = some c.ENV ∧
    ∃ paths, j.get "PATHS" = some paths ∧
      paths.get "SOURCE_CODE" = some c.PATH_SRC ∧
      paths.get "DATA" = some c.PATH_DATA ∧
      paths.get "LOG" = some c.PATH_LOG ∧
      paths.get "TEST" = some c.PATH_TEST := by
  simp only [loadConfig] at h
  rcases h1 : j.get "APP_NAME" with _ | app <;> simp only [h1] at h
  · exact absurd h (by simp)
  rcases h2 : j.get "VERSION" with _ | ver <;> simp only [h2] at h
  · exact absurd h (by simp)
  rcases h3 : j.get "ENV" with _ | env <;> simp only [h3] at h
  · exact absurd h (by simp)
  rcases h4 : j.get "PATHS" with _ | paths <;> simp only [h4] at h
  · exact absurd h (by simp)
  rcases h5 : paths.get "SOURCE_CODE" with _ | src <;> simp only [h5] at h
  · exact absurd h (by simp)
  rcases h6 : paths.get "DATA" with _ | dat <;> simp only [h6] at h
  · exact absurd h (by simp)
  rcases h7 : paths.get "LOG" with _ | log <;> simp only [h7] at h
  · exact absurd h (by simp)
  rcases h8 : paths.get "TEST" with _ | tst <;> simp only [h8] at h
  · exact absurd h (by simp)
  injection h with h
  subst h
  exact ⟨rfl, rfl, rfl, paths, rfl, h5, h6, h7, h8⟩

/-! ## Claim theorems -/

/-- C1: building the factory-product model (maximize 20x+30y with x in
[0,400], y in [0,300], x/60+y/50 <= 8, x and y integer) and solving it
yields, under any external-solver capability whose outcome for this model
is a correct Optimal report, status Optimal with objective value 11400,
screws_tons_per_day = 120 and nails_tons_per_day = 300. -/
theorem factory_round_trip (cap : Solver)
    (hst : (cap factoryProb).status = .optimal)
    (hopt : OptimalFor factoryProb (cap factoryProb).values) :
    ∃ r, factoryProb.solve cap = .ok r ∧ r.status = .optimal ∧
      objVal factoryProb r.values = 11400 ∧
      r.values "screws_tons_per_day" = 120 ∧
      r.values "nails_tons_per_day" = 300 := by
  refine ⟨cap factoryProb, rfl, hst, ?_⟩
  have hobj : objVal factoryProb (cap factoryProb).values = 11400 := by
    have h1 := factory_obj_bound hopt.1
    have h2 := hopt.2 factoryOptA factoryOptA_feasible
    rw [objVal_factoryOptA] at h2
    linarith
  obtain ⟨hx, hy⟩ := factory_obj_eq_values hopt.1 hobj
  exact ⟨hobj, hx, hy⟩

/-- Witness for C1: a solver reporting the documented optimum satisfies
the hypotheses, and the solve run returns the documented values. -/
theorem factory_round_trip_witness :
    ∃ r, factoryProb.solve (fun _ => ⟨.optimal, factoryOptA⟩) = .ok r ∧
      r.status = .optimal ∧
      objVal factoryProb r.values = 11400 ∧
      r.values "screws_tons_per_day" = 120 ∧
      r.values "nails_tons_per_day" = 300 :=
  factory_round_trip (fun _ => ⟨.optimal, factoryOptA⟩) rfl
    factoryOptA_optimal

/-- C2: building the advertising-campaign model (maximize
1000000x+2000000y with 20000x+50000y <= 1000000, x in [0,40], y in
[0,15], x and y integer) and solving it yields, under any external-solver
capability whose outcome for this model is a correct Optimal report,
status Optimal with objective value 48000000, run_no_of_print_media = 40
and run_no_of_tv_media = 4. -/
theorem advert_round_trip (cap : Solver)
    (hst : (cap advertProb).status = .optimal)
    (hopt : OptimalFor advertProb (cap advertProb).values) :
    ∃ r, advertProb.solve cap = .ok r ∧ r.status = .optimal ∧
      objVal advertProb r.values = 48000000 ∧
      r.values "run_no_of_print_media" = 40 ∧
      r.values "run_no_of_tv_media" = 4 := by
  refine ⟨cap advertProb, rfl, hst, ?_⟩
  have hobj : objVal advertProb (cap advertProb).values = 48000000 := by
    have h1 := advert_obj_bound hopt.1
    have h2 := hopt.2 advertOptA advertOptA_feasible
    rw [objVal_advertOptA] at h2
    linarith
  obtain ⟨hx, hy⟩ := advert_obj_eq_values hopt.1 hobj
  exact ⟨hobj, hx, hy⟩

/-- Witness for C2: a solver reporting the documented optimum satisfies
the hypotheses, and the solve run returns the documented values. -/
theorem advert_round_trip_witness :
    ∃ r, advertProb.solve (fun _ => ⟨.optimal, advertOptA⟩) = .ok r ∧
      r.status = .optimal ∧
      objVal advertProb r.values = 48000000 ∧
      r.values "run_no_of_print_media" = 40 ∧
      r.values "run_no_of_tv_media" = 4 :=
  advert_round_trip (fun _ => ⟨.optimal, advertOptA⟩) rfl
    advertOptA_optimal

/-- C3 counterexample: the claim quantifies over every expression e, but
when e already holds a term for v (here coefficient 1, with a = b = 0)
the resulting coefficient is the old coefficient plus a + b, not a + b. -/
theorem addVar_repeat_counterexample :
    ¬ ((((⟨[("v", 1)], 0⟩ : LinExpr).addVar "v" 0).addVar "v" 0).coeff "v"
        = 0 + 0) := by
  simp [LinExpr.addVar, LinExpr.coeff, addTerm, coeffOf]

/-- C3 (amended): for every linear expression e with no existing term for
v, adding v with coefficient a and then again with coefficient b yields a
term map with a single term for v whose coefficient is a + b; and
coefficient accumulation under expression addition is commutative and
associative. -/
theorem coefficient_accumulation (e : LinExpr) (v : String) (a b : ℚ)
    (h : countKey e.terms v = 0) :
    countKey ((e.addVar v a).addVar v b).terms v = 1 ∧
    ((e.addVar v a).addVar v b).coeff v = a + b ∧
    (∀ e₁ e₂ : LinExpr, ∀ w, (e₁.add e₂).coeff w = (e₂.add e₁).coeff w) ∧
    (∀ e₁ e₂ e₃ : LinExpr, ∀ w,
      ((e₁.add e₂).add e₃).coeff w = (e₁.add (e₂.add e₃)).coeff w) := by
  refine ⟨?_, ?_, ?_, ?_⟩
  · exact countKey_addTerm_self _ _ _ (countKey_addTerm_of_nonmem _ _ _ h)
  · show coeffOf (addTerm (addTerm e.terms v a) v b) v = a + b
    rw [coeffOf_addTerm, coeffOf_addTerm, coeffOf_nonmem _ _ h]
    simp
  · intro e₁ e₂ w
    rw [LinExpr.coeff_add, LinExpr.coeff_add]
    ring
  · intro e₁ e₂ e₃ w
    simp only [LinExpr.coeff_add]
    ring

/-- Witness for C3 (amended) at the empty expression with a = 1, b = 2. -/
theorem coefficient_accumulation_witness :
    countKey (((⟨[], 0⟩ : LinExpr).addVar "v" 1).addVar "v" 2).terms "v"
        = 1 ∧
    (((⟨[], 0⟩ : LinExpr).addVar "v" 1).addVar "v" 2).coeff "v" = 1 + 2 :=
  ⟨(coefficient_accumulation ⟨[], 0⟩ "v" 1 2 rfl).1,
   (coefficient_accumulation ⟨[], 0⟩ "v" 1 2 rfl).2.1⟩

/-- C4: solve never raises for solver-reported outcomes (the outcome,
whatever its status, is returned in the ok result), while a model with no
objective always fails with MissingObjectiveError, independently of the
external solver, hence before it is invoked. -/
theorem solve_error_discipline (p : LpProblem) (cap : Solver) :
    (p.objective = none →
      p.solve cap = .error .missingObjective ∧
      ∀ cap₂ : Solver, p.solve cap₂ = p.solve cap) ∧
    (∀ e, p.objective = some e → p.solve cap = .ok (cap p)) := by
  constructor
  · intro h
    constructor
    · simp [LpProblem.solve, h]
    · intro cap₂
      simp [LpProblem.solve, h]
  · intro e he
    simp [LpProblem.solve, he]

/-- Witness for C4: the objective-free model errors with
MissingObjectiveError, and a model with an objective returns the solver
outcome (here Infeasible) as a result, not an error. -/
theorem solve_error_discipline_witness :
    noObjectiveProb.solve infeasibleSolver = .error .missingObjective ∧
    factoryProb.solve infeasibleSolver =
      .ok (infeasibleSolver factoryProb) :=
  ⟨((solve_error_discipline noObjectiveProb infeasibleSolver).1 rfl).1,
   (solve_error_discipline factoryProb infeasibleSolver).2
     factoryObjective rfl⟩

/-- C5: constructing a variable with both bounds specified and
lowerBound > upperBound fails with InvalidBoundsError; otherwise the
result is exactly the requested variable (the constructor is a pure
function, so it has no side effects). -/
theorem variable_invalid_bounds (name : String) (lb ub : ℚ)
    (cat : VarCat) (h : ub < lb) :
    mkLpVariable name (some lb) (some ub) cat = .error .invalidBounds ∧
    ∀ lb₂ ub₂ : ℚ, lb₂ ≤ ub₂ →
      mkLpVariable name (some lb₂) (some ub₂) cat =
        .ok ⟨name, some lb₂, some ub₂, cat⟩ := by
  constructor
  · simp [mkLpVariable, h]
  · intro lb₂ ub₂ h₂
    simp [mkLpVariable, not_lt.mpr h₂]

/-- Witness for C5 at bounds 5 > 3 (and the valid bounds 0 <= 400 the
source uses). -/
theorem variable_invalid_bounds_witness :
    mkLpVariable "v" (some 5) (some 3) .integer = .error .invalidBounds ∧
    mkLpVariable "v" (some 0) (some 400) .integer =
      .ok ⟨"v", some 0, some 400, .integer⟩ :=
  ⟨(variable_invalid_bounds "v" 5 3 .integer (by norm_num)).1,
   (variable_invalid_bounds "v" 5 3 .integer (by norm_num)).2 0 400
     (by norm_num)⟩

/-- C6: configuration loading reads APP_NAME, VERSION, ENV and the PATHS
sub-keys SOURCE_CODE, DATA, LOG and TEST and exposes each one; loading
succeeds exactly when the file exists and every key is present, so a
missing file or key is an immediate error and no constants are produced;
the ENV vocabulary is the fixed enumeration UAT = 1, PROD = 9. -/
theorem config_loading (file : Option Json) :
    loadConfig none = .error .missingFile ∧
    ((loadConfig file).isOk ↔ ∃ j, file = some j ∧ hasAllConfigKeys j) ∧
    (∀ j c, file = some j → loadConfig file = .ok c →
      j.get "APP_NAME" = some c.APP_NAME ∧
      j.get "VERSION" = some c.VERSION ∧
      j.get "ENV" = some c.ENV ∧
      ∃ paths, j.get "PATHS" = some paths ∧
        paths.get "SOURCE_CODE" = some c.PATH_SRC ∧
        paths.get "DATA" = some c.PATH_DATA ∧
        paths.get "LOG" = some c.PATH_LOG ∧
        paths.get "TEST" = some c.PATH_TEST) ∧
    Environment.UAT = 1 ∧ Environment.PROD = 9 := by
  refine ⟨rfl, ?_, ?_, rfl, rfl⟩
  · cases file with
    | none => simp [loadConfig, Except.isOk, Except.toBool]
    | some j => simp [loadConfig_some_ok_iff j]
  · intro j c hf h
    subst hf
    exact loadConfig_fields h

/-- Witness for C6: a concrete complete config file loads, its ENV field
is exposed, and the missing file errors. -/
theorem config_loading_witness :
    loadConfig none = .error .missingFile ∧
    (configJsonWithEnv (.num 1)).get "ENV" = some (.num 1) :=
  ⟨(config_loading none).1,
   ((config_loading (some (configJsonWithEnv (.num 1)))).2.2.1
      (configJsonWithEnv (.num 1))
      ⟨.str "python_linear_programming_samples", .str "1.0", .num 1,
       .str "/src", .str "/data", .str "/log", .str "/test"⟩
      rfl rfl).2.2.1⟩

/-- C7: after a successful solve each example function prints, in order,
a blank line, the problem name, the status string, each variable of the
model with its resolved value (in the library's name-sorted order), and
the optimal objective value. -/
theorem report_order (cap : Solver)
    (hf : (cap factoryProb).status = .optimal)
    (ha : (cap advertProb).status = .optimal) :
    printedLines (factory_product_problem cap) =
      [Line.blank,
       Line.problemName "Factory Products Profit",
       Line.status "Optimal",
       Line.varValue "nails_tons_per_day"
         ((cap factoryProb).values "nails_tons_per_day"),
       Line.varValue "screws_tons_per_day"
         ((cap factoryProb).values "screws_tons_per_day"),
       Line.objective "Ton for each product per day to maximise profit = "
         (objVal factoryProb (cap factoryProb).values)] ∧
    printedLines (advertising_campaign_problem cap) =
      [Line.blank,
       Line.problemName "Advertisement Campaign",
       Line.status "Optimal",
       Line.varValue "run_no_of_print_media"
         ((cap advertProb).values "run_no_of_print_media"),
       Line.varValue "run_no_of_tv_media"
         ((cap advertProb).values "run_no_of_tv_media"),
       Line.objective "Maximum people reach by using both media = "
         (objVal advertProb (cap advertProb).values)] := by
  constructor
  · rw [printedLines_factory]
    unfold reportLines
    rw [factory_sortedVariables, hf]
    simp [statusString, screwsVar, nailsVar, factoryProb]
  · rw [printedLines_advert]
    unfold reportLines
    rw [advert_sortedVariables, ha]
    simp [statusString, printMediaVar, tvMediaVar, advertProb]

/-- Witness for C7 at a solver that reports Optimal with all-zero
values. -/
theorem report_order_witness :
    printedLines (factory_product_problem constOptSolver) =
      [Line.blank,
       Line.problemName "Factory Products Profit",
       Line.status "Optimal",
       Line.varValue "nails_tons_per_day"
         ((constOptSolver factoryProb).values "nails_tons_per_day"),
       Line.varValue "screws_tons_per_day"
         ((constOptSolver factoryProb).values "screws_tons_per_day"),
       Line.objective "Ton for each product per day to maximise profit = "
         (objVal factoryProb (constOptSolver factoryProb).values)] ∧
    printedLines (advertising_campaign_problem constOptSolver) =
      [Line.blank,
       Line.problemName "Advertisement Campaign",
       Line.status "Optimal",
       Line.varValue "run_no_of_print_media"
         ((constOptSolver advertProb).values "run_no_of_print_media"),
       Line.varValue "run_no_of_tv_media"
         ((constOptSolver advertProb).values "run_no_of_tv_media"),
       Line.objective "Maximum people reach by using both media = "
         (objVal advertProb (constOptSolver advertProb).values)] :=
  report_order constOptSolver rfl rfl

/-- C8: loading never validates ENV: a config file whose ENV holds any
JSON value whatsoever (here arbitrary e) loads successfully with
Config.ENV exactly as deserialized, and in every successful load the ENV
constant equals the raw value under the ENV key; the Environment members
play no role in loading. -/
theorem env_not_validated (e : Json) :
    loadConfig (some (configJsonWithEnv e)) =
      .ok ⟨.str "python_linear_programming_samples", .str "1.0", e,
           .str "/src", .str "/data", .str "/log", .str "/test"⟩ ∧
    (∀ j c, loadConfig (some j) = .ok c → j.get "ENV" = some c.ENV) := by
  constructor
  · rfl
  · intro j c h
    exact (loadConfig_fields h).2.2.1

/-- Witness for C8 at ENV = 7, a value that is neither UAT (1) nor
PROD (9). -/
theorem env_not_validated_witness :
    loadConfig (some (configJsonWithEnv (.num 7))) =
      .ok ⟨.str "python_linear_programming_samples", .str "1.0", .num 7,
           .str "/src", .str "/data", .str "/log", .str "/test"⟩ ∧
    (configJsonWithEnv (.num 7)).get "ENV" = some (.num 7) :=
  ⟨(env_not_validated (.num 7)).1,
   (env_not_validated (.num 7)).2 (configJsonWithEnv (.num 7)) _
     (env_not_validated (.num 7)).1⟩

/-- C9: each example run writes its model to its .lp file exactly once,
strictly before solve and hence regardless of the solve outcome, and the
model written is the very model solved (objective, constraints and
variables unaltered). -/
theorem writeLP_before_solve (cap : Solver) :
    (factory_product_problem cap).take 2 =
      [Event.wroteLP "MaximisedProfit.lp" factoryProb,
       Event.solved factoryProb] ∧
    (advertising_campaign_problem cap).take 2 =
      [Event.wroteLP "AdvertisementCampaign.lp" advertProb,
       Event.solved advertProb] ∧
    writtenFiles (factory_product_problem cap) =
      [("MaximisedProfit.lp", factoryProb)] ∧
    writtenFiles (advertising_campaign_problem cap) =
      [("AdvertisementCampaign.lp", advertProb)] ∧
    solvedModels (factory_product_problem cap) = [factoryProb] ∧
    solvedModels (advertising_campaign_problem cap) = [advertProb] :=
  ⟨rfl, rfl, writtenFiles_factory cap, writtenFiles_advert cap,
   solvedModels_factory cap, solvedModels_advert cap⟩

/-- C10: main() runs factory_product_problem first and
advertising_campaign_problem second, each exactly once, and no other
model is built, written or solved. -/
theorem main_call_order (cap : Solver) :
    main cap =
      factory_product_problem cap ++ advertising_campaign_problem cap ∧
    solvedModels (main cap) = [factoryProb, advertProb] ∧
    writtenFiles (main cap) =
      [("MaximisedProfit.lp", factoryProb),
       ("AdvertisementCampaign.lp", advertProb)] := by
  refine ⟨rfl, ?_, ?_⟩
  · rw [show main cap =
        factory_product_problem cap ++ advertising_campaign_problem cap
        from rfl,
      solvedModels_append, solvedModels_factory, solvedModels_advert]
    rfl
  · rw [show main cap =
        factory_product_problem cap ++ advertising_campaign_problem cap
        from rfl,
      writtenFiles_append, writtenFiles_factory, writtenFiles_advert]
    rfl

end LpSamples
